import Mathlib

/-
Shallow embedding of the backslash-z request router (src/lib.rs).

The crate classifies a chat line into one of three intents via regexes
(`Request::from_str`), dispatches the parsed request (`Request::request`),
and resolves air-quality requests through a pipeline: address geocoding,
keyword-geocoding fallback, air-station lookup, command-driven pollutant
filtering (`search_air`).  External collaborators (daumdic, daummap,
airkorea, howto) are modelled as an explicit environment of functions; the
lazy candidate streams they return are modelled as materialized lists, and
`into_future` as taking the head of the list.  Collaborator failures are
opaque (`AppError.ext`); this crate's own failures are `AppError.req`.
-/

set_option maxHeartbeats 1000000

namespace BZ

/-- Coordinate component.  The source carries `f32` longitude/latitude values
but never computes with them (they are only extracted from geocoding records
and handed to the air-station lookup unchanged), so the scalar is modelled by
an arbitrary fixed type with decidable equality. -/
abbrev F32 := Int

/-- Land-lot sub-record of a geocoded address (`daummap::Address::land_lot`).
Only the two coordinate fields are consulted by this crate; the collaborator's
other fields are omitted. -/
structure LandLot where
  longitude : Option F32
  latitude : Option F32
deriving DecidableEq

/-- Address candidate returned by address geocoding (`daummap::Address`);
only the `land_lot` field is consulted by this crate. -/
structure Address where
  land_lot : Option LandLot
deriving DecidableEq

/-- Place candidate returned by keyword geocoding (`daummap::Place`);
only the two coordinate fields are consulted by this crate. -/
structure Place where
  longitude : Option F32
  latitude : Option F32
deriving DecidableEq

/-- One pollutant reading (`airkorea::Pollutant`); only the `name` field is
consulted by this crate, the reading values are omitted. -/
structure Pollutant where
  name : String
deriving DecidableEq

/-- Station status returned by the air-station lookup (`airkorea::AirStatus`). -/
structure AirStatus where
  station_address : String
  pollutants : List Pollutant
deriving DecidableEq

/-- Opaque dictionary-lookup payload (`daumdic::Search`); never inspected. -/
structure DicSearch where
  tag : Nat
deriving DecidableEq

/-- Opaque how-to answer payload (`howto::Answer`); never inspected. -/
structure Answer where
  tag : Nat
deriving DecidableEq

/-- The crate's closed error taxonomy (`RequestError`). -/
inductive RequestError where
  | CannotParseRequest : String → RequestError
  | AddressNotFound : String → RequestError
  | InvalidAirkoreaCommand : String → RequestError
  | HowtoNotFound : String → RequestError
deriving DecidableEq

/-- A `failure::Error` value: either one of this crate's `RequestError`s or an
opaque error propagated from a collaborator (modelled by a numeric tag). -/
inductive AppError where
  | req : RequestError → AppError
  | ext : Nat → AppError
deriving DecidableEq

/-- `Config`: the single geocoding credential. -/
structure Config where
  daummap_app_key : String
deriving DecidableEq

/-- Parsed request (`Request`). -/
inductive Request where
  | Dictionary : String → Request
  | AirPollution : String → String → Request
  | HowTo : String → Request
deriving DecidableEq

/-- Unified response (`Response`). -/
inductive Response where
  | Dictionary : DicSearch → Response
  | AirPollution : AirStatus → Response
  | HowTo : Answer → Response
deriving DecidableEq

/-- The external collaborators, as an explicit environment.  Each lazy stream
of candidates is modelled as a materialized list or a single opaque error. -/
structure Env where
  addressSearch : String → String → Except Nat (List Address)
  keywordSearch : String → String → Except Nat (List Place)
  airkoreaSearch : F32 × F32 → Except Nat AirStatus
  dicSearch : String → Except Nat DicSearch
  howtoSearch : String → Except Nat (List Answer)

/- ## The regular expressions of `Request::from_str`

The three anchored regexes are embedded directly.  `dropTok ts cs` consumes
the literal prefix `ts` from `cs`; `matchTail tok s` matches
`^tok (.+)$` under Rust `regex` semantics: a single space after the token,
then one or more characters none of which is a newline (`.` does not match
`\x0a` and `$` only matches at the end of the haystack). -/

/-- Consume the literal character prefix `ts` from `cs`. -/
def dropTok : List Char → List Char → Option (List Char)
  | [], cs => some cs
  | _ :: _, [] => none
  | t :: ts, c :: cs => if c = t then dropTok ts cs else none

/-- Match `^tok (.+)$` against `s` and return the capture. -/
def matchTail (tok s : String) : Option String :=
  match dropTok (tok.data ++ [' ']) s.data with
  | none => none
  | some rest =>
    if rest = [] ∨ '\n' ∈ rest then none else some (String.mk rest)

/-- First-alternative-wins choice, as in the regex alternation. -/
def orElse2 {α : Type} : Option α → Option α → Option α
  | some x, _ => some x
  | none, b => b

/-- Tag a successful tail match with the token that matched. -/
def tagTail (tok s : String) : Option (String × String) :=
  match matchTail tok s with
  | some rest => some (tok, rest)
  | none => none

/-- `^[dD](?:ic)? (.+)$`: the character class fixes the first letter and the
greedy optional group is tried first; the four concrete shapes are mutually
exclusive (the character after the first one differs), so this ordered
alternation is equivalent. -/
def regexDic (s : String) : Option String :=
  orElse2 (matchTail "dic" s)
    (orElse2 (matchTail "Dic" s)
      (orElse2 (matchTail "d" s) (matchTail "D" s)))

/-- `^(air|pm|pm10|pm25|o3|so2|no2|co|so2) (.+)$` with leftmost-first
alternation semantics, duplicate `so2` alternative included as in the source. -/
def regexAir (s : String) : Option (String × String) :=
  orElse2 (tagTail "air" s)
    (orElse2 (tagTail "pm" s)
      (orElse2 (tagTail "pm10" s)
        (orElse2 (tagTail "pm25" s)
          (orElse2 (tagTail "o3" s)
            (orElse2 (tagTail "so2" s)
              (orElse2 (tagTail "no2" s)
                (orElse2 (tagTail "co" s) (tagTail "so2" s))))))))

/-- `^[hH](?:owto)? (.+)$`, embedded like `regexDic`. -/
def regexHowto (s : String) : Option String :=
  orElse2 (matchTail "howto" s)
    (orElse2 (matchTail "Howto" s)
      (orElse2 (matchTail "h" s) (matchTail "H" s)))

/-- The command alternatives of the air-pollution regex, in alternation order
(`so2` duplicated as in the source). -/
def airTokens : List String :=
  ["air", "pm", "pm10", "pm25", "o3", "so2", "no2", "co", "so2"]

/-- `Request::from_str`: try the dictionary, air-pollution and how-to
patterns in that order; if none matches, fail with `CannotParseRequest`
carrying the original message. -/
def Request.fromStr (message : String) : Except RequestError Request :=
  match regexDic message with
  | some q => .ok (.Dictionary q)
  | none =>
  match regexAir message with
  | some (c, q) => .ok (.AirPollution c q)
  | none =>
  match regexHowto message with
  | some q => .ok (.HowTo q)
  | none => .error (.CannotParseRequest message)

/- ## Coordinate extraction and the resolvers -/

/-- `join`: combine two options into an optional pair. -/
def join {T U : Type} : Option T × Option U → Option (T × U)
  | (some t, some u) => some (t, u)
  | _ => none

/-- `get_coord_from_address`. -/
def get_coord_from_address (address : Address) : Option (F32 × F32) :=
  (address.land_lot.map fun land_lot => (land_lot.longitude, land_lot.latitude)).bind join

/-- `get_coord_from_place`. -/
def get_coord_from_place (place : Place) : Option (F32 × F32) :=
  join (place.longitude, place.latitude)

/-- `search_dic`: pass-through dictionary lookup. -/
def search_dic (query : String) (env : Env) : Except AppError Response :=
  match env.dicSearch query with
  | .error e => .error (.ext e)
  | .ok s => .ok (.Dictionary s)

/-- Stage 1 of `search_air`: address geocoding, keep the first
coordinate-bearing candidate, `AddressNotFound` if there is none. -/
def addressStage (env : Env) (app_key query : String) : Except AppError (F32 × F32) :=
  match env.addressSearch app_key query with
  | .error e => .error (.ext e)
  | .ok addrs =>
    match (addrs.filterMap get_coord_from_address).head? with
    | some c => .ok c
    | none => .error (.req (.AddressNotFound query))

/-- Stage 2 of `search_air`: keyword geocoding, keep the first
coordinate-bearing candidate, `AddressNotFound` if there is none. -/
def keywordStage (env : Env) (app_key query : String) : Except AppError (F32 × F32) :=
  match env.keywordSearch app_key query with
  | .error e => .error (.ext e)
  | .ok places =>
    match (places.filterMap get_coord_from_place).head? with
    | some c => .ok c
    | none => .error (.req (.AddressNotFound query))

/-- The `or_else` fallback: any stage-1 error (swallowed) falls through to
stage 2. -/
def resolveCoord (env : Env) (app_key query : String) : Except AppError (F32 × F32) :=
  match addressStage env app_key query with
  | .ok c => .ok c
  | .error _ => keywordStage env app_key query

/-- Rust `str::contains(&str)`: substring containment. -/
def strContainsSub (hay pat : String) : Bool :=
  hay.data.tails.any fun t => pat.data.isPrefixOf t

/-- Rust `str::to_lowercase`, modelled per character (it agrees with the Rust
function on ASCII pollutant names). -/
def lowerStr (s : String) : String := String.mk (s.data.map Char.toLower)

/-- The pollutant filter of `search_air`'s final `and_then`. -/
def selectPollutants (command : String) (status : AirStatus) : List Pollutant :=
  if command = "air" then status.pollutants
  else if command = "pm" then
    status.pollutants.filter fun p => strContainsSub p.name "PM"
  else
    status.pollutants.filter fun p => strContainsSub (lowerStr p.name) command

/-- Empty-filter check and rebuild of the status record, as in the final
`and_then` of `search_air`. -/
def filterStatus (command : String) (status : AirStatus) : Except AppError AirStatus :=
  let ps := selectPollutants command status
  if ps.isEmpty then .error (.req (.InvalidAirkoreaCommand command))
  else .ok ⟨status.station_address, ps⟩

/-- Everything after a coordinate is resolved: air-station lookup, then the
pollutant filter, then wrapping in `Response::AirPollution`. -/
def stationStage (env : Env) (command : String) (c : F32 × F32) : Except AppError Response :=
  match env.airkoreaSearch c with
  | .error e => .error (.ext e)
  | .ok status =>
    match filterStatus command status with
    | .error e => .error e
    | .ok st => .ok (.AirPollution st)

/-- Feed a resolved coordinate (or its terminal error) into `stationStage`. -/
def afterGeo (env : Env) (command : String) :
    Except AppError (F32 × F32) → Except AppError Response
  | .error e => .error e
  | .ok c => stationStage env command c

/-- `search_air`: the full air-quality pipeline. -/
def search_air (command query app_key : String) (env : Env) : Except AppError Response :=
  afterGeo env command (resolveCoord env app_key query)

/-- `search_howto`: take the first answer of the collaborator's stream,
`HowtoNotFound` when the stream is empty, collaborator errors unchanged. -/
def search_howto (query : String) (env : Env) : Except AppError Response :=
  match env.howtoSearch query with
  | .error e => .error (.ext e)
  | .ok answers =>
    match answers.head? with
    | some a => .ok (.HowTo a)
    | none => .error (.req (.HowtoNotFound query))

/-- `Request::request`: dispatch to the resolver selected by the variant. -/
def Request.request (self : Request) (config : Config) (env : Env) :
    Except AppError Response :=
  match self with
  | .Dictionary query => search_dic query env
  | .AirPollution command query => search_air command query config.daummap_app_key env
  | .HowTo query => search_howto query env

/-- Formatting a `Request` back to its command-prefix text form, as described
by the spec's round-trip property (`"d " + query`, `command + " " + query`,
`"h " + query`); the crate itself defines no formatter. -/
def formatRequest : Request → String
  | .Dictionary q => "d " ++ q
  | .AirPollution c q => c ++ " " ++ q
  | .HowTo q => "h " ++ q

/-- The requests the parser can actually produce: non-empty, newline-free
payloads, and an air command drawn from the regex's token list. -/
def wellFormed : Request → Prop
  | .Dictionary q => q ≠ "" ∧ '\n' ∉ q.data
  | .AirPollution c q => c ∈ airTokens ∧ q ≠ "" ∧ '\n' ∉ q.data
  | .HowTo q => q ≠ "" ∧ '\n' ∉ q.data

/- ## Concrete sample data and environments -/

/-- The spec's example station status: pollutants PM10, PM25, O3. -/
def egStatus : AirStatus := ⟨"station", [⟨"PM10"⟩, ⟨"PM25"⟩, ⟨"O3"⟩]⟩

/-- Both geocoders answer successfully but with zero candidates. -/
def envBothEmpty : Env :=
  ⟨fun _ _ => .ok [], fun _ _ => .ok [], fun _ => .ok ⟨"st", []⟩, fun _ => .ok ⟨0⟩,
    fun _ => .ok []⟩

/-- The address geocoder fails outright and the keyword geocoder also fails. -/
def envAddrFailKeyFail : Env :=
  ⟨fun _ _ => .error 3, fun _ _ => .error 7, fun _ => .ok ⟨"st", []⟩, fun _ => .ok ⟨0⟩,
    fun _ => .ok []⟩

/-- The dictionary collaborator answers with a fixed payload. -/
def envDicOnly : Env :=
  ⟨fun _ _ => .ok [], fun _ _ => .ok [], fun _ => .ok ⟨"st", []⟩, fun _ => .ok ⟨42⟩,
    fun _ => .ok []⟩

/-- The how-to collaborator answers with one answer. -/
def envHow : Env :=
  ⟨fun _ _ => .ok [], fun _ _ => .ok [], fun _ => .ok ⟨"st", []⟩, fun _ => .ok ⟨0⟩,
    fun _ => .ok [⟨9⟩]⟩

instance {ε α : Type} [DecidableEq ε] [DecidableEq α] : DecidableEq (Except ε α) :=
  fun x y =>
  match x, y with
  | .ok a, .ok b => if h : a = b then .isTrue (by rw [h]) else .isFalse (by simp [h])
  | .error a, .error b => if h : a = b then .isTrue (by rw [h]) else .isFalse (by simp [h])
  | .ok _, .error _ => .isFalse (by simp)
  | .error _, .ok _ => .isFalse (by simp)

/- ## Basic lemmas about the regex embedding -/

theorem data_append (a b : String) : (a ++ b).data = a.data ++ b.data := by
  cases a; cases b; rfl

theorem str_ext {a b : String} (h : a.data = b.data) : a = b :=
  congrArg String.mk h

theorem mk_data (s : String) : String.mk s.data = s := rfl

theorem str_ne_empty_iff {a : String} : a ≠ "" ↔ a.data ≠ [] := by
  constructor
  · intro h hd
    exact h (str_ext (by simpa using hd))
  · intro h hd
    exact h (by simp [hd])

theorem concat_data (tok rem : String) :
    (tok ++ " " ++ rem).data = tok.data ++ ' ' :: rem.data := by
  have hsp : (" " : String).data = [' '] := rfl
  simp [data_append, hsp]

theorem dropTok_self (ts rest : List Char) : dropTok ts (ts ++ rest) = some rest := by
  induction ts with
  | nil => rfl
  | cons t ts ih => simp [dropTok, ih]

theorem dropTok_eq_some {ts cs rest : List Char} :
    dropTok ts cs = some rest ↔ cs = ts ++ rest := by
  induction ts generalizing cs with
  | nil => simp [dropTok]
  | cons t ts ih =>
    cases cs with
    | nil => simp [dropTok]
    | cons c cs =>
      by_cases h : c = t
      · subst h
        simp [dropTok, ih]
      · simp [dropTok, h, Ne.symm h]

theorem matchTail_concat (tok rem : String) (h1 : rem ≠ "") (h2 : '\n' ∉ rem.data) :
    matchTail tok (tok ++ " " ++ rem) = some rem := by
  have h1' : rem.data ≠ [] := str_ne_empty_iff.mp h1
  have hdrop : dropTok (tok.data ++ [' ']) (tok ++ " " ++ rem).data = some rem.data :=
    dropTok_eq_some.mpr (by simp [concat_data, List.append_assoc])
  unfold matchTail
  rw [hdrop]
  show (if rem.data = [] ∨ '\n' ∈ rem.data then none else some (String.mk rem.data))
      = some rem
  rw [if_neg (by simp [h1', h2])]

theorem matchTail_eq_some {tok s rem : String} :
    matchTail tok s = some rem ↔
      s.data = tok.data ++ ' ' :: rem.data ∧ rem ≠ "" ∧ '\n' ∉ rem.data := by
  constructor
  · intro h
    cases hdrop : dropTok (tok.data ++ [' ']) s.data with
    | none => simp [matchTail, hdrop] at h
    | some rest =>
      by_cases hc : rest = [] ∨ '\n' ∈ rest
      · simp [matchTail, hdrop, hc] at h
      · unfold matchTail at h
        rw [hdrop] at h
        have h' : (if rest = [] ∨ '\n' ∈ rest then none
            else some (String.mk rest)) = some rem := h
        rw [if_neg hc] at h'
        push_neg at hc
        have hrest : rest = rem.data := congrArg String.data (Option.some.inj h')
        subst hrest
        refine ⟨?_, str_ne_empty_iff.mpr hc.1, hc.2⟩
        have := dropTok_eq_some.mp hdrop
        rw [this]
        simp [List.append_assoc]
  · rintro ⟨hs, h1, h2⟩
    have : s = tok ++ " " ++ rem := str_ext (by rw [hs, concat_data])
    rw [this]
    exact matchTail_concat tok rem h1 h2

theorem orElse2_eq_some {α : Type} {a b : Option α} {x : α} :
    orElse2 a b = some x ↔ a = some x ∨ (a = none ∧ b = some x) := by
  cases a <;> simp [orElse2]

/- ## Composing the matchers: how each pattern parses -/

theorem regexDic_cases {s cap : String} (h : regexDic s = some cap) :
    ∃ p, p ∈ (["d", "D", "dic", "Dic"] : List String) ∧
      s = p ++ " " ++ cap ∧ cap ≠ "" ∧ '\n' ∉ cap.data := by
  unfold regexDic at h
  rcases orElse2_eq_some.mp h with h | ⟨-, h⟩
  · obtain ⟨hs, hne, hnl⟩ := matchTail_eq_some.mp h
    exact ⟨"dic", by simp, str_ext (by rw [hs, concat_data]), hne, hnl⟩
  rcases orElse2_eq_some.mp h with h | ⟨-, h⟩
  · obtain ⟨hs, hne, hnl⟩ := matchTail_eq_some.mp h
    exact ⟨"Dic", by simp, str_ext (by rw [hs, concat_data]), hne, hnl⟩
  rcases orElse2_eq_some.mp h with h | ⟨-, h⟩
  · obtain ⟨hs, hne, hnl⟩ := matchTail_eq_some.mp h
    exact ⟨"d", by simp, str_ext (by rw [hs, concat_data]), hne, hnl⟩
  · obtain ⟨hs, hne, hnl⟩ := matchTail_eq_some.mp h
    exact ⟨"D", by simp, str_ext (by rw [hs, concat_data]), hne, hnl⟩

theorem parse_dic_concat (p cap : String)
    (hp : p ∈ (["d", "D", "dic", "Dic"] : List String))
    (h1 : cap ≠ "") (h2 : '\n' ∉ cap.data) :
    Request.fromStr (p ++ " " ++ cap) = .ok (.Dictionary cap) := by
  fin_cases hp
  · have e0 : matchTail "dic" ("d " ++ cap) = none := rfl
    have e1 : matchTail "Dic" ("d " ++ cap) = none := rfl
    have es : matchTail "d" ("d " ++ cap) = some cap := matchTail_concat "d" cap h1 h2
    simp [Request.fromStr, regexDic, orElse2, e0, e1, es]
  · have e0 : matchTail "dic" ("D " ++ cap) = none := rfl
    have e1 : matchTail "Dic" ("D " ++ cap) = none := rfl
    have e2 : matchTail "d" ("D " ++ cap) = none := rfl
    have es : matchTail "D" ("D " ++ cap) = some cap := matchTail_concat "D" cap h1 h2
    simp [Request.fromStr, regexDic, orElse2, e0, e1, e2, es]
  · have es : matchTail "dic" ("dic " ++ cap) = some cap :=
      matchTail_concat "dic" cap h1 h2
    simp [Request.fromStr, regexDic, orElse2, es]
  · have e0 : matchTail "dic" ("Dic " ++ cap) = none := rfl
    have es : matchTail "Dic" ("Dic " ++ cap) = some cap :=
      matchTail_concat "Dic" cap h1 h2
    simp [Request.fromStr, regexDic, orElse2, e0, es]

theorem parse_air_concat (tok rem : String) (htok : tok ∈ airTokens)
    (h1 : rem ≠ "") (h2 : '\n' ∉ rem.data) :
    Request.fromStr (tok ++ " " ++ rem) = .ok (.AirPollution tok rem) := by
  fin_cases htok
  · have e0 : regexDic ("air " ++ rem) = none := rfl
    have es : matchTail "air" ("air " ++ rem) = some rem :=
      matchTail_concat "air" rem h1 h2
    simp [Request.fromStr, regexAir, tagTail, orElse2, e0, es]
  · have e0 : regexDic ("pm " ++ rem) = none := rfl
    have e1 : matchTail "air" ("pm " ++ rem) = none := rfl
    have es : matchTail "pm" ("pm " ++ rem) = some rem :=
      matchTail_concat "pm" rem h1 h2
    simp [Request.fromStr, regexAir, tagTail, orElse2, e0, e1, es]
  · have e0 : regexDic ("pm10 " ++ rem) = none := rfl
    have e1 : matchTail "air" ("pm10 " ++ rem) = none := rfl
    have e2 : matchTail "pm" ("pm10 " ++ rem) = none := rfl
    have es : matchTail "pm10" ("pm10 " ++ rem) = some rem :=
      matchTail_concat "pm10" rem h1 h2
    simp [Request.fromStr, regexAir, tagTail, orElse2, e0, e1, e2, es]
  · have e0 : regexDic ("pm25 " ++ rem) = none := rfl
    have e1 : matchTail "air" ("pm25 " ++ rem) = none := rfl
    have e2 : matchTail "pm" ("pm25 " ++ rem) = none := rfl
    have e3 : matchTail "pm10" ("pm25 " ++ rem) = none := rfl
    have es : matchTail "pm25" ("pm25 " ++ rem) = some rem :=
      matchTail_concat "pm25" rem h1 h2
    simp [Request.fromStr, regexAir, tagTail, orElse2, e0, e1, e2, e3, es]
  · have e0 : regexDic ("o3 " ++ rem) = none := rfl
    have e1 : matchTail "air" ("o3 " ++ rem) = none := rfl
    have e2 : matchTail "pm" ("o3 " ++ rem) = none := rfl
    have e3 : matchTail "pm10" ("o3 " ++ rem) = none := rfl
    have e4 : matchTail "pm25" ("o3 " ++ rem) = none := rfl
    have es : matchTail "o3" ("o3 " ++ rem) = some rem :=
      matchTail_concat "o3" rem h1 h2
    simp [Request.fromStr, regexAir, tagTail, orElse2, e0, e1, e2, e3, e4, es]
  · have e0 : regexDic ("so2 " ++ rem) = none := rfl
    have e1 : matchTail "air" ("so2 " ++ rem) = none := rfl
    have e2 : matchTail "pm" ("so2 " ++ rem) = none := rfl
    have e3 : matchTail "pm10" ("so2 " ++ rem) = none := rfl
    have e4 : matchTail "pm25" ("so2 " ++ rem) = none := rfl
    have e5 : matchTail "o3" ("so2 " ++ rem) = none := rfl
    have es : matchTail "so2" ("so2 " ++ rem) = some rem :=
      matchTail_concat "so2" rem h1 h2
    simp [Request.fromStr, regexAir, tagTail, orElse2, e0, e1, e2, e3, e4, e5, es]
  · have e0 : regexDic ("no2 " ++ rem) = none := rfl
    have e1 : matchTail "air" ("no2 " ++ rem) = none := rfl
    have e2 : matchTail "pm" ("no2 " ++ rem) = none := rfl
    have e3 : matchTail "pm10" ("no2 " ++ rem) = none := rfl
    have e4 : matchTail "pm25" ("no2 " ++ rem) = none := rfl
    have e5 : matchTail "o3" ("no2 " ++ rem) = none := rfl
    have e6 : matchTail "so2" ("no2 " ++ rem) = none := rfl
    have es : matchTail "no2" ("no2 " ++ rem) = some rem :=
      matchTail_concat "no2" rem h1 h2
    simp [Request.fromStr, regexAir, tagTail, orElse2, e0, e1, e2, e3, e4, e5, e6, es]
  · have e0 : regexDic ("co " ++ rem) = none := rfl
    have e1 : matchTail "air" ("co " ++ rem) = none := rfl
    have e2 : matchTail "pm" ("co " ++ rem) = none := rfl
    have e3 : matchTail "pm10" ("co " ++ rem) = none := rfl
    have e4 : matchTail "pm25" ("co " ++ rem) = none := rfl
    have e5 : matchTail "o3" ("co " ++ rem) = none := rfl
    have e6 : matchTail "so2" ("co " ++ rem) = none := rfl
    have e7 : matchTail "no2" ("co " ++ rem) = none := rfl
    have es : matchTail "co" ("co " ++ rem) = some rem :=
      matchTail_concat "co" rem h1 h2
    simp [Request.fromStr, regexAir, tagTail, orElse2, e0, e1, e2, e3, e4, e5, e6, e7,
      es]
  · have e0 : regexDic ("so2 " ++ rem) = none := rfl
    have e1 : matchTail "air" ("so2 " ++ rem) = none := rfl
    have e2 : matchTail "pm" ("so2 " ++ rem) = none := rfl
    have e3 : matchTail "pm10" ("so2 " ++ rem) = none := rfl
    have e4 : matchTail "pm25" ("so2 " ++ rem) = none := rfl
    have e5 : matchTail "o3" ("so2 " ++ rem) = none := rfl
    have es : matchTail "so2" ("so2 " ++ rem) = some rem :=
      matchTail_concat "so2" rem h1 h2
    simp [Request.fromStr, regexAir, tagTail, orElse2, e0, e1, e2, e3, e4, e5, es]

theorem parse_howto_concat (p cap : String)
    (hp : p ∈ (["h", "H", "howto", "Howto"] : List String))
    (h1 : cap ≠ "") (h2 : '\n' ∉ cap.data) :
    Request.fromStr (p ++ " " ++ cap) = .ok (.HowTo cap) := by
  fin_cases hp
  · have e0 : regexDic ("h " ++ cap) = none := rfl
    have e1 : regexAir ("h " ++ cap) = none := rfl
    have e2 : matchTail "howto" ("h " ++ cap) = none := rfl
    have e3 : matchTail "Howto" ("h " ++ cap) = none := rfl
    have es : matchTail "h" ("h " ++ cap) = some cap := matchTail_concat "h" cap h1 h2
    simp [Request.fromStr, regexHowto, orElse2, e0, e1, e2, e3, es]
  · have e0 : regexDic ("H " ++ cap) = none := rfl
    have e1 : regexAir ("H " ++ cap) = none := rfl
    have e2 : matchTail "howto" ("H " ++ cap) = none := rfl
    have e3 : matchTail "Howto" ("H " ++ cap) = none := rfl
    have e4 : matchTail "h" ("H " ++ cap) = none := rfl
    have es : matchTail "H" ("H " ++ cap) = some cap := matchTail_concat "H" cap h1 h2
    simp [Request.fromStr, regexHowto, orElse2, e0, e1, e2, e3, e4, es]
  · have e0 : regexDic ("howto " ++ cap) = none := rfl
    have e1 : regexAir ("howto " ++ cap) = none := rfl
    have es : matchTail "howto" ("howto " ++ cap) = some cap :=
      matchTail_concat "howto" cap h1 h2
    simp [Request.fromStr, regexHowto, orElse2, e0, e1, es]
  · have e0 : regexDic ("Howto " ++ cap) = none := rfl
    have e1 : regexAir ("Howto " ++ cap) = none := rfl
    have e2 : matchTail "howto" ("Howto " ++ cap) = none := rfl
    have es : matchTail "Howto" ("Howto " ++ cap) = some cap :=
      matchTail_concat "Howto" cap h1 h2
    simp [Request.fromStr, regexHowto, orElse2, e0, e1, e2, es]

/- ## Claims about the intent parser -/

/-- Claim C3: parsing attempts the dictionary, air-pollution and how-to
patterns in that fixed priority order and returns the first match as a typed
`Request`; it fails with `CannotParseRequest` carrying the original text if
and only if none of the three patterns matches; in particular the exact text
`"pm2"` fails with `CannotParseRequest "pm2"`. -/
theorem c3_parse_priority (m : String) :
    (∀ q, regexDic m = some q → Request.fromStr m = .ok (.Dictionary q)) ∧
    (∀ c q, regexDic m = none → regexAir m = some (c, q) →
      Request.fromStr m = .ok (.AirPollution c q)) ∧
    (∀ q, regexDic m = none → regexAir m = none → regexHowto m = some q →
      Request.fromStr m = .ok (.HowTo q)) ∧
    (Request.fromStr m = .error (.CannotParseRequest m) ↔
      regexDic m = none ∧ regexAir m = none ∧ regexHowto m = none) ∧
    Request.fromStr "pm2" = .error (.CannotParseRequest "pm2") := by
  refine ⟨?_, ?_, ?_, ⟨?_, ?_⟩, rfl⟩
  · intro q h
    simp [Request.fromStr, h]
  · intro c q h1 h2
    simp [Request.fromStr, h1, h2]
  · intro q h1 h2 h3
    simp [Request.fromStr, h1, h2, h3]
  · intro h
    cases h1 : regexDic m with
    | some q => simp [Request.fromStr, h1] at h
    | none =>
      cases h2 : regexAir m with
      | some cq =>
        obtain ⟨c, q⟩ := cq
        simp [Request.fromStr, h1, h2] at h
      | none =>
        cases h3 : regexHowto m with
        | some q => simp [Request.fromStr, h1, h2, h3] at h
        | none => exact ⟨rfl, rfl, rfl⟩
  · rintro ⟨h1, h2, h3⟩
    simp [Request.fromStr, h1, h2, h3]

/-- Witness for C3 at a concrete input: the how-to pattern is reached only
after the first two patterns fail. -/
theorem c3_parse_priority_wit : Request.fromStr "h x" = .ok (.HowTo "x") :=
  (c3_parse_priority "h x").2.2.1 "x" rfl rfl rfl

/-- Claim C4: every text matching `^[dD](ic)? (.+)$` parses to
`Dictionary capture`, the capture being exactly the trailing group (the text
is one of the four prefix shapes followed by a space and the verbatim
remainder), and conversely every such decomposition matches and parses. -/
theorem c4_dictionary_regex :
    (∀ s cap : String, regexDic s = some cap →
      Request.fromStr s = .ok (.Dictionary cap) ∧
        ∃ p, p ∈ (["d", "D", "dic", "Dic"] : List String) ∧ s = p ++ " " ++ cap) ∧
    (∀ p cap : String, p ∈ (["d", "D", "dic", "Dic"] : List String) →
      cap ≠ "" → '\n' ∉ cap.data →
      Request.fromStr (p ++ " " ++ cap) = .ok (.Dictionary cap)) := by
  constructor
  · intro s cap h
    refine ⟨by simp [Request.fromStr, h], ?_⟩
    obtain ⟨p, hp, hs, -, -⟩ := regexDic_cases h
    exact ⟨p, hp, hs⟩
  · exact parse_dic_concat

/-- Witness for C4 at a concrete input. -/
theorem c4_dictionary_regex_wit :
    Request.fromStr ("dic" ++ " " ++ "hello") = .ok (.Dictionary "hello") :=
  c4_dictionary_regex.2 "dic" "hello" (by decide) (by decide) (by decide)

/-- Claim C5 counterexample: the claim quantifies over every remainder, but a
remainder containing a newline does not match the air-pollution regex (Rust
`.` does not match `\x0a`), so `"pm" ++ " " ++ "a\nb"` does not parse to
`AirPollution "pm" "a\nb"`; it is a parse failure. -/
theorem c5_air_token_cex :
    ("pm" ++ " " ++ "a\nb" : String) = "pm a\nb" ∧
    Request.fromStr "pm a\nb" = .error (.CannotParseRequest "pm a\nb") ∧
    Request.fromStr "pm a\nb" ≠ .ok (.AirPollution "pm" "a\nb") := by
  refine ⟨rfl, rfl, ?_⟩
  decide

/-- Claim C5 (amended: the remainder must also be newline-free, because `.` in
the Rust regex does not match a newline): for every token of the alternation
list and every non-empty newline-free remainder, `token ++ " " ++ remainder`
parses to `AirPollution token remainder`, capturing the full token. -/
theorem c5_air_token (tok rem : String) (htok : tok ∈ airTokens)
    (h1 : rem ≠ "") (h2 : '\n' ∉ rem.data) :
    Request.fromStr (tok ++ " " ++ rem) = .ok (.AirPollution tok rem) :=
  parse_air_concat tok rem htok h1 h2

/-- Witness for C5 at the spec's concrete examples: `"air Seoul"` and
`"pm10 Busan"` (the longer token `pm10` is captured, not its prefix `pm`). -/
theorem c5_air_token_wit :
    Request.fromStr "pm10 Busan" = .ok (.AirPollution "pm10" "Busan") ∧
    Request.fromStr "air Seoul" = .ok (.AirPollution "air" "Seoul") := by
  constructor
  · exact c5_air_token "pm10" "Busan" (by decide) (by decide) (by decide)
  · exact c5_air_token "air" "Seoul" (by decide) (by decide) (by decide)

/-- Claim C8 counterexample: the round trip fails for `Dictionary ""`: it
formats to `"d "`, which does not re-parse (the pattern requires a non-empty
remainder) but fails with `CannotParseRequest`. -/
theorem c8_round_trip_cex :
    formatRequest (.Dictionary "") = "d " ∧
    Request.fromStr (formatRequest (.Dictionary "")) =
      .error (.CannotParseRequest "d ") ∧
    Request.fromStr (formatRequest (.Dictionary "")) ≠ .ok (.Dictionary "") := by
  refine ⟨rfl, rfl, ?_⟩
  decide

/-- Claim C8 (amended: restricted to requests the parser can produce, i.e.
non-empty newline-free payloads and an air command from the token list, which
the counterexamples outside that set force): formatting such a `Request` back
to its command-prefix form re-parses to the same `Request`. -/
theorem c8_round_trip (r : Request) (h : wellFormed r) :
    Request.fromStr (formatRequest r) = .ok r := by
  cases r with
  | Dictionary q =>
    obtain ⟨h1, h2⟩ := h
    exact parse_dic_concat "d" q (by decide) h1 h2
  | AirPollution c q =>
    obtain ⟨hc, h1, h2⟩ := h
    exact parse_air_concat c q hc h1 h2
  | HowTo q =>
    obtain ⟨h1, h2⟩ := h
    exact parse_howto_concat "h" q (by decide) h1 h2

/-- Witness for C8 at a concrete input. -/
theorem c8_round_trip_wit :
    Request.fromStr (formatRequest (.AirPollution "o3" "Seoul")) =
      .ok (.AirPollution "o3" "Seoul") :=
  c8_round_trip (.AirPollution "o3" "Seoul") ⟨by decide, by decide, by decide⟩

/- ## Lemmas about the air-quality pipeline -/

theorem stationStage_ne_addr (env : Env) (command q : String) (c : F32 × F32) :
    stationStage env command c ≠ .error (.req (.AddressNotFound q)) := by
  unfold stationStage filterStatus
  cases h : env.airkoreaSearch c with
  | error e => simp
  | ok status =>
    by_cases hp : (selectPollutants command status).isEmpty <;> simp [hp]

theorem stationStage_air_error (env : Env) (command : String) (c : F32 × F32)
    (e : Nat) (he : env.airkoreaSearch c = .error e) :
    stationStage env command c = .error (.ext e) := by
  unfold stationStage
  rw [he]

theorem stationStage_of_station (env : Env) (command : String) (c : F32 × F32)
    (status : AirStatus) (hs : env.airkoreaSearch c = .ok status) :
    stationStage env command c =
      match filterStatus command status with
      | .error e => .error e
      | .ok st => .ok (.AirPollution st) := by
  unfold stationStage
  rw [hs]

theorem filterStatus_of_empty (command : String) (status : AirStatus)
    (hsel : selectPollutants command status = []) :
    filterStatus command status =
      .error (.req (.InvalidAirkoreaCommand command)) := by
  unfold filterStatus
  rw [hsel]
  rfl

theorem stationStage_filter_empty (env : Env) (command : String) (c : F32 × F32)
    (status : AirStatus) (hs : env.airkoreaSearch c = .ok status)
    (hsel : selectPollutants command status = []) :
    stationStage env command c = .error (.req (.InvalidAirkoreaCommand command)) := by
  rw [stationStage_of_station env command c status hs, filterStatus_of_empty command status hsel]

theorem addressStage_val_err (env : Env) (k q : String) (e : Nat)
    (h : env.addressSearch k q = .error e) :
    addressStage env k q = .error (.ext e) := by
  unfold addressStage
  rw [h]

theorem addressStage_val_some (env : Env) (k q : String) (addrs : List Address)
    (c : F32 × F32) (h : env.addressSearch k q = .ok addrs)
    (hh : (addrs.filterMap get_coord_from_address).head? = some c) :
    addressStage env k q = .ok c := by
  unfold addressStage
  rw [h]
  show (match (addrs.filterMap get_coord_from_address).head? with
      | some c => (Except.ok c : Except AppError (F32 × F32))
      | none => .error (.req (.AddressNotFound q))) = .ok c
  rw [hh]

theorem addressStage_val_none (env : Env) (k q : String) (addrs : List Address)
    (h : env.addressSearch k q = .ok addrs)
    (hh : (addrs.filterMap get_coord_from_address).head? = none) :
    addressStage env k q = .error (.req (.AddressNotFound q)) := by
  unfold addressStage
  rw [h]
  show (match (addrs.filterMap get_coord_from_address).head? with
      | some c => (Except.ok c : Except AppError (F32 × F32))
      | none => .error (.req (.AddressNotFound q))) =
    .error (.req (.AddressNotFound q))
  rw [hh]

theorem keywordStage_val_err (env : Env) (k q : String) (e : Nat)
    (h : env.keywordSearch k q = .error e) :
    keywordStage env k q = .error (.ext e) := by
  unfold keywordStage
  rw [h]

theorem keywordStage_val_some (env : Env) (k q : String) (places : List Place)
    (c : F32 × F32) (h : env.keywordSearch k q = .ok places)
    (hh : (places.filterMap get_coord_from_place).head? = some c) :
    keywordStage env k q = .ok c := by
  unfold keywordStage
  rw [h]
  show (match (places.filterMap get_coord_from_place).head? with
      | some c => (Except.ok c : Except AppError (F32 × F32))
      | none => .error (.req (.AddressNotFound q))) = .ok c
  rw [hh]

theorem keywordStage_val_none (env : Env) (k q : String) (places : List Place)
    (h : env.keywordSearch k q = .ok places)
    (hh : (places.filterMap get_coord_from_place).head? = none) :
    keywordStage env k q = .error (.req (.AddressNotFound q)) := by
  unfold keywordStage
  rw [h]
  show (match (places.filterMap get_coord_from_place).head? with
      | some c => (Except.ok c : Except AppError (F32 × F32))
      | none => .error (.req (.AddressNotFound q))) =
    .error (.req (.AddressNotFound q))
  rw [hh]

theorem resolveCoord_of_addr_ok (env : Env) (k q : String) (c : F32 × F32)
    (ha : addressStage env k q = .ok c) : resolveCoord env k q = .ok c := by
  unfold resolveCoord
  rw [ha]

theorem resolveCoord_of_addr_err (env : Env) (k q : String) (e : AppError)
    (ha : addressStage env k q = .error e) :
    resolveCoord env k q = keywordStage env k q := by
  unfold resolveCoord
  rw [ha]

theorem addressStage_error_iff (env : Env) (k q : String) :
    (∃ e, addressStage env k q = .error e) ↔
      (∃ e, env.addressSearch k q = .error e) ∨
        ∃ addrs, env.addressSearch k q = .ok addrs ∧
          addrs.filterMap get_coord_from_address = [] := by
  cases h : env.addressSearch k q with
  | error e =>
    apply iff_of_true
    · exact ⟨.ext e, addressStage_val_err env k q e h⟩
    · exact .inl ⟨e, rfl⟩
  | ok addrs =>
    cases hh : (addrs.filterMap get_coord_from_address).head? with
    | some c =>
      apply iff_of_false
      · rintro ⟨e, he⟩
        rw [addressStage_val_some env k q addrs c h hh] at he
        exact Except.noConfusion he
      · rintro (⟨e, he⟩ | ⟨addrs2, ha2, hfm⟩)
        · exact Except.noConfusion he
        · have h2 : addrs2 = addrs := (Except.ok.inj ha2).symm
          subst h2
          rw [hfm] at hh
          simp at hh
    | none =>
      apply iff_of_true
      · exact ⟨.req (.AddressNotFound q), addressStage_val_none env k q addrs h hh⟩
      · exact .inr ⟨addrs, rfl, List.head?_eq_none_iff.mp hh⟩

theorem search_dic_ok_shape {q : String} {env : Env} {resp : Response}
    (h : search_dic q env = .ok resp) : ∃ x, resp = .Dictionary x := by
  unfold search_dic at h
  cases hd : env.dicSearch q with
  | error e => simp [hd] at h
  | ok s =>
    simp [hd] at h
    exact ⟨s, h.symm⟩

theorem stationStage_ok_shape {env : Env} {command : String} {c : F32 × F32}
    {resp : Response} (h : stationStage env command c = .ok resp) :
    ∃ st, resp = .AirPollution st := by
  unfold stationStage at h
  cases ha : env.airkoreaSearch c with
  | error e => simp [ha] at h
  | ok status =>
    simp only [ha] at h
    cases hf : filterStatus command status with
    | error e => simp [hf] at h
    | ok st =>
      simp [hf] at h
      exact ⟨st, h.symm⟩

theorem search_air_ok_shape {command query app_key : String} {env : Env}
    {resp : Response} (h : search_air command query app_key env = .ok resp) :
    ∃ st, resp = .AirPollution st := by
  unfold search_air at h
  cases hr : resolveCoord env app_key query with
  | error e => simp [afterGeo, hr] at h
  | ok c =>
    rw [hr] at h
    exact stationStage_ok_shape h

theorem search_howto_ok_shape {query : String} {env : Env} {resp : Response}
    (h : search_howto query env = .ok resp) : ∃ a, resp = .HowTo a := by
  unfold search_howto at h
  cases hh : env.howtoSearch query with
  | error e => simp [hh] at h
  | ok answers =>
    cases answers with
    | nil => simp [hh] at h
    | cons a rest =>
      simp [hh] at h
      exact ⟨a, h.symm⟩

/- ## Claims about the air-quality pipeline and dispatch -/

/-- Claim C1: if the address-geocoding stage yields zero coordinate-bearing
candidates or the address-geocoding call itself fails, the resolver proceeds
with keyword geocoding for the same query, swallowing the address-stage
error; and the whole resolution fails with `AddressNotFound query` exactly
when the address stage failed and keyword geocoding returned zero
coordinate-bearing candidates. -/
theorem c1_geocode_fallback (command query app_key : String) (env : Env) :
    ((∃ e, addressStage env app_key query = .error e) ↔
      (∃ e, env.addressSearch app_key query = .error e) ∨
        ∃ addrs, env.addressSearch app_key query = .ok addrs ∧
          addrs.filterMap get_coord_from_address = []) ∧
    (∀ e, addressStage env app_key query = .error e →
      search_air command query app_key env =
        afterGeo env command (keywordStage env app_key query)) ∧
    (search_air command query app_key env = .error (.req (.AddressNotFound query)) ↔
      (∃ e, addressStage env app_key query = .error e) ∧
        ∃ places, env.keywordSearch app_key query = .ok places ∧
          places.filterMap get_coord_from_place = []) := by
  refine ⟨addressStage_error_iff env app_key query, ?_, ?_⟩
  · intro e he
    unfold search_air
    rw [resolveCoord_of_addr_err env app_key query e he]
  · cases ha : addressStage env app_key query with
    | ok c =>
      have hv : search_air command query app_key env = stationStage env command c := by
        unfold search_air
        rw [resolveCoord_of_addr_ok env app_key query c ha]
        rfl
      rw [hv]
      apply iff_of_false
      · exact stationStage_ne_addr env command query c
      · rintro ⟨⟨e, he⟩, -⟩
        exact Except.noConfusion he
    | error e0 =>
      have hres : resolveCoord env app_key query = keywordStage env app_key query :=
        resolveCoord_of_addr_err env app_key query e0 ha
      cases hk : env.keywordSearch app_key query with
      | error e1 =>
        have hv : search_air command query app_key env = .error (.ext e1) := by
          unfold search_air
          rw [hres, keywordStage_val_err env app_key query e1 hk]
          rfl
        rw [hv]
        apply iff_of_false
        · simp
        · rintro ⟨-, places, hp, -⟩
          exact Except.noConfusion hp
      | ok places =>
        cases hh : (places.filterMap get_coord_from_place).head? with
        | some c =>
          have hv : search_air command query app_key env = stationStage env command c := by
            unfold search_air
            rw [hres, keywordStage_val_some env app_key query places c hk hh]
            rfl
          rw [hv]
          apply iff_of_false
          · exact stationStage_ne_addr env command query c
          · rintro ⟨-, places2, hp2, hfm⟩
            have h2 : places2 = places := (Except.ok.inj hp2).symm
            subst h2
            rw [hfm] at hh
            simp at hh
        | none =>
          have hv : search_air command query app_key env =
              .error (.req (.AddressNotFound query)) := by
            unfold search_air
            rw [hres, keywordStage_val_none env app_key query places hk hh]
            rfl
          rw [hv]
          apply iff_of_true
          · rfl
          · exact ⟨⟨e0, rfl⟩, places, rfl, List.head?_eq_none_iff.mp hh⟩

/-- Witness for C1: with both geocoders returning zero candidates, the
resolution fails with `AddressNotFound` for the query. -/
theorem c1_geocode_fallback_wit :
    search_air "air" "nowhere" "key" envBothEmpty =
      .error (.req (.AddressNotFound "nowhere")) :=
  (c1_geocode_fallback "air" "nowhere" "key" envBothEmpty).2.2.mpr
    ⟨⟨.req (.AddressNotFound "nowhere"), rfl⟩, [], rfl, rfl⟩

/-- Claim C2: the pollutant filter keeps all pollutants for `"air"`, the
`"PM"`-named ones (case-sensitive) for `"pm"`, and those whose lower-cased
name contains the command for any other command; resolution fails with
`InvalidAirkoreaCommand command` exactly when the filtered list is empty, and
otherwise returns the original station address with the filtered list. -/
theorem c2_pollutant_filter (command : String) (status : AirStatus) :
    (filterStatus command status = .error (.req (.InvalidAirkoreaCommand command)) ↔
      selectPollutants command status = []) ∧
    (selectPollutants command status ≠ [] →
      filterStatus command status =
        .ok ⟨status.station_address, selectPollutants command status⟩) ∧
    (command = "air" → selectPollutants command status = status.pollutants) ∧
    (command = "pm" → selectPollutants command status =
      status.pollutants.filter fun p => strContainsSub p.name "PM") ∧
    (command ≠ "air" → command ≠ "pm" → selectPollutants command status =
      status.pollutants.filter fun p => strContainsSub (lowerStr p.name) command) := by
  refine ⟨?_, ?_, ?_, ?_, ?_⟩
  · unfold filterStatus
    cases hsel : selectPollutants command status with
    | nil => simp
    | cons p ps => simp
  · intro hne
    unfold filterStatus
    cases hsel : selectPollutants command status with
    | nil => exact absurd hsel hne
    | cons p ps => simp
  · intro h
    subst h
    unfold selectPollutants
    rw [if_pos rfl]
  · intro h
    subst h
    unfold selectPollutants
    rw [if_neg (by decide), if_pos rfl]
  · intro h1 h2
    unfold selectPollutants
    rw [if_neg h1, if_neg h2]

/-- Witness for C2 at the spec's example: pollutants PM10, PM25, O3 with
commands `"pm"`, `"xyz"` and `"o3"`. -/
theorem c2_pollutant_filter_wit :
    filterStatus "pm" egStatus = .ok ⟨"station", [⟨"PM10"⟩, ⟨"PM25"⟩]⟩ ∧
    filterStatus "xyz" egStatus = .error (.req (.InvalidAirkoreaCommand "xyz")) ∧
    selectPollutants "o3" egStatus = [⟨"O3"⟩] := by
  refine ⟨?_, ?_, by decide⟩
  · exact ((c2_pollutant_filter "pm" egStatus).2.1 (by decide)).trans (by decide)
  · exact (c2_pollutant_filter "xyz" egStatus).1.mpr (by decide)

/-- Claim C6: coordinate extraction is both-or-nothing.  The address extractor
returns a pair exactly when the land-lot sub-record is present with both
components present (absence yields `none`, never an error, e.g. land-lot with
only a longitude); the place extractor returns a pair exactly when both
components are present. -/
theorem c6_coord_extraction :
    (∀ (a : Address) (lng lat : F32),
      get_coord_from_address a = some (lng, lat) ↔
        ∃ ll, a.land_lot = some ll ∧
          ll.longitude = some lng ∧ ll.latitude = some lat) ∧
    (∀ (a : Address), a.land_lot = none → get_coord_from_address a = none) ∧
    (∀ (ll : LandLot), ll.latitude = none → get_coord_from_address ⟨some ll⟩ = none) ∧
    (∀ (ll : LandLot), ll.longitude = none → get_coord_from_address ⟨some ll⟩ = none) ∧
    (∀ (p : Place) (lng lat : F32),
      get_coord_from_place p = some (lng, lat) ↔
        p.longitude = some lng ∧ p.latitude = some lat) := by
  refine ⟨?_, ?_, ?_, ?_, ?_⟩
  · intro a lng lat
    obtain ⟨lo⟩ := a
    cases lo with
    | none => simp [get_coord_from_address]
    | some ll =>
      obtain ⟨x, y⟩ := ll
      cases x <;> cases y <;> simp [get_coord_from_address, join]
  · intro a h
    obtain ⟨lo⟩ := a
    cases lo with
    | none => simp [get_coord_from_address]
    | some ll => simp at h
  · intro ll h
    obtain ⟨x, y⟩ := ll
    simp at h
    subst h
    cases x <;> simp [get_coord_from_address, join]
  · intro ll h
    obtain ⟨x, y⟩ := ll
    simp at h
    subst h
    cases y <;> simp [get_coord_from_address, join]
  · intro p lng lat
    obtain ⟨x, y⟩ := p
    cases x <;> cases y <;> simp [get_coord_from_place, join]

/-- Witness for C6: an address whose land lot has only a longitude yields no
coordinate; a place with both components yields the pair. -/
theorem c6_coord_extraction_wit :
    get_coord_from_address ⟨some ⟨some 5, none⟩⟩ = none ∧
    get_coord_from_place ⟨some 5, some 7⟩ = some (5, 7) := by
  constructor
  · exact c6_coord_extraction.2.2.1 ⟨some 5, none⟩ rfl
  · exact (c6_coord_extraction.2.2.2.2 ⟨some 5, some 7⟩ 5 7).mpr ⟨rfl, rfl⟩

/-- Claim C7: how-to resolution is a pass-through call: it fails with
`HowtoNotFound query` exactly when the collaborator returns no answer, wraps
the first answer as a `HowTo` response, and propagates collaborator errors
unchanged. -/
theorem c7_howto_passthrough (query : String) (env : Env) :
    (search_howto query env = .error (.req (.HowtoNotFound query)) ↔
      env.howtoSearch query = .ok []) ∧
    (∀ a rest, env.howtoSearch query = .ok (a :: rest) →
      search_howto query env = .ok (.HowTo a)) ∧
    (∀ e, env.howtoSearch query = .error e →
      search_howto query env = .error (.ext e)) := by
  refine ⟨?_, ?_, ?_⟩
  · unfold search_howto
    cases hh : env.howtoSearch query with
    | error e =>
      apply iff_of_false
      · simp
      · simp
    | ok answers =>
      cases answers with
      | nil =>
        apply iff_of_true
        · rfl
        · rfl
      | cons a rest =>
        apply iff_of_false
        · simp
        · simp
  · intro a rest h
    unfold search_howto
    rw [h]
    rfl
  · intro e h
    unfold search_howto
    rw [h]

/-- Witness for C7: the collaborator's first answer comes back as a `HowTo`
response. -/
theorem c7_howto_passthrough_wit : search_howto "q" envHow = .ok (.HowTo ⟨9⟩) :=
  (c7_howto_passthrough "q" envHow).2.1 ⟨9⟩ [] rfl

/-- Claim C9: dispatch invokes exactly the resolver selected by the request
variant, and a successful response's variant corresponds to the request's
variant (no cross-variant mixing). -/
theorem c9_dispatch (config : Config) (env : Env) :
    (∀ q, Request.request (.Dictionary q) config env = search_dic q env) ∧
    (∀ c q, Request.request (.AirPollution c q) config env =
      search_air c q config.daummap_app_key env) ∧
    (∀ q, Request.request (.HowTo q) config env = search_howto q env) ∧
    (∀ r resp, Request.request r config env = .ok resp →
      ((∃ q, r = .Dictionary q) → ∃ x, resp = .Dictionary x) ∧
      ((∃ c q, r = .AirPollution c q) → ∃ st, resp = .AirPollution st) ∧
      ((∃ q, r = .HowTo q) → ∃ a, resp = .HowTo a)) := by
  refine ⟨fun q => rfl, fun c q => rfl, fun q => rfl, ?_⟩
  intro r resp h
  cases r with
  | Dictionary q =>
    have h' : search_dic q env = .ok resp := h
    refine ⟨fun _ => search_dic_ok_shape h', ?_, ?_⟩
    · rintro ⟨c, q2, hq⟩
      exact Request.noConfusion hq
    · rintro ⟨q2, hq⟩
      exact Request.noConfusion hq
  | AirPollution c q =>
    have h' : search_air c q config.daummap_app_key env = .ok resp := h
    refine ⟨?_, fun _ => search_air_ok_shape h', ?_⟩
    · rintro ⟨q2, hq⟩
      exact Request.noConfusion hq
    · rintro ⟨q2, hq⟩
      exact Request.noConfusion hq
  | HowTo q =>
    have h' : search_howto q env = .ok resp := h
    refine ⟨?_, ?_, fun _ => search_howto_ok_shape h'⟩
    · rintro ⟨q2, hq⟩
      exact Request.noConfusion hq
    · rintro ⟨c, q2, hq⟩
      exact Request.noConfusion hq

/-- Witness for C9: a dictionary request dispatched against a concrete
environment yields a dictionary response. -/
theorem c9_dispatch_wit :
    ∃ x, (Response.Dictionary ⟨42⟩) = Response.Dictionary x :=
  ((c9_dispatch ⟨"key"⟩ envDicOnly).2.2.2 (.Dictionary "word") (.Dictionary ⟨42⟩)
    rfl).1 ⟨"word", rfl⟩

/-- Claim C10: the fallback covers only the address stage.  A failure of the
keyword-geocoding call itself propagates unchanged; once a coordinate is
resolved, the rest of the pipeline depends only on the air-station
collaborator (`stationStage` is unchanged under any environment agreeing on
it), and errors of the station lookup or of the filtering step are terminal. -/
theorem c10_fallback_scope (command query app_key : String) (env : Env) :
    (∀ eA eK, addressStage env app_key query = .error eA →
      env.keywordSearch app_key query = .error eK →
      search_air command query app_key env = .error (.ext eK)) ∧
    (∀ c, resolveCoord env app_key query = .ok c →
      search_air command query app_key env = stationStage env command c) ∧
    (∀ (env2 : Env) (c : F32 × F32), env2.airkoreaSearch = env.airkoreaSearch →
      stationStage env2 command c = stationStage env command c) ∧
    (∀ c e, resolveCoord env app_key query = .ok c →
      env.airkoreaSearch c = .error e →
      search_air command query app_key env = .error (.ext e)) ∧
    (∀ c status, resolveCoord env app_key query = .ok c →
      env.airkoreaSearch c = .ok status →
      selectPollutants command status = [] →
      search_air command query app_key env =
        .error (.req (.InvalidAirkoreaCommand command))) := by
  refine ⟨?_, ?_, ?_, ?_, ?_⟩
  · intro eA eK hA hK
    unfold search_air
    rw [resolveCoord_of_addr_err env app_key query eA hA,
      keywordStage_val_err env app_key query eK hK]
    rfl
  · intro c hc
    unfold search_air
    rw [hc]
    rfl
  · intro env2 c hsame
    unfold stationStage
    rw [hsame]
  · intro c e hc he
    unfold search_air
    rw [hc]
    exact stationStage_air_error env command c e he
  · intro c status hc hs hsel
    unfold search_air
    rw [hc]
    exact stationStage_filter_empty env command c status hs hsel

/-- Witness for C10: a failing keyword-geocoding call after a failing address
stage surfaces as the collaborator's own error, not `AddressNotFound`. -/
theorem c10_fallback_scope_wit :
    search_air "air" "q" "k" envAddrFailKeyFail = .error (.ext 7) :=
  (c10_fallback_scope "air" "q" "k" envAddrFailKeyFail).1 (.ext 3) 7 rfl rfl

end BZ
